import Mathlib

/-!
Verification of the moxui GPU rendering core: a shallow embedding of the
buffer abstraction, shape renderer, texture atlas renderer, blur compositor
and viewport, with theorems settling the specification's claims.

Device-side effects are modelled by CPU-observable state: byte capacities,
element counts, write counters, uploaded array contents and issued draw
calls.  Floating-point Gaussian evaluation (`exp`/`sqrt` on `f32`) is
abstracted as a parameter `g : ℚ → ℤ → ℚ` standing for
`fun sigma y => 1/sqrt(2*pi*sigma^2) * exp(-y^2/(2*sigma^2))`; every
structural fact proved below holds for an arbitrary evaluator.
-/

/-- Model of `buffers::instance::InstanceBuffer<T>`: `capacity` is the byte
size of the underlying `wgpu::Buffer`, `count` is `instances.len()` of the
CPU-side shadow slice. -/
structure InstanceBuffer where
  capacity : Nat
  count : Nat
deriving DecidableEq

/-- `InstanceBuffer::new(device, &[])`: `create_buffer_init` sized to the
empty contents, empty shadow. -/
def InstanceBuffer.init : InstanceBuffer := ⟨0, 0⟩

/-- `InstanceBuffer::with_size(device, size)`: fresh device buffer of `size`
bytes, empty shadow. -/
def InstanceBuffer.with_size (size : Nat) : InstanceBuffer := ⟨size, 0⟩

/-- `InstanceBuffer::size()` returns `self.instances.len()` (the element
count of the shadow, not the byte capacity). -/
def InstanceBuffer.size (b : InstanceBuffer) : Nat := b.count

/-- `InstanceBuffer::write(queue, data)`: `queue.write_buffer` into the
existing buffer (capacity unchanged), shadow replaced by `data`. -/
def InstanceBuffer.write (b : InstanceBuffer) (dataLen : Nat) : InstanceBuffer :=
  ⟨b.capacity, dataLen⟩

/-- One recorded `draw_indexed(0..indexCount, 0, 0..instanceCount)` call. -/
structure DrawCall where
  indexCount : Nat
  instanceCount : Nat
deriving DecidableEq

/-- `std::mem::size_of::<ShapeInstance>()`: 22 `f32` fields, `repr(C)`,
hence 88 bytes. -/
def shapeInstanceSize : Nat := 88

/-- `std::mem::size_of::<TextureInstance>()`: 29 `f32` fields, `repr(C)`,
hence 116 bytes. -/
def textureInstanceSize : Nat := 116

/-- `std::mem::size_of::<BlurInstance>()`: one `u32` plus 8 `f32` fields,
`repr(C)`, hence 36 bytes. -/
def blurInstanceSize : Nat := 36

/-- Model of `ShapeRenderer` state relevant to buffer growth and draws. -/
structure ShapeRenderer where
  instance_buffer : InstanceBuffer
deriving DecidableEq

/-- `ShapeRenderer::new`: `InstanceBuffer::new(device, &[])`. -/
def ShapeRenderer.init : ShapeRenderer := ⟨InstanceBuffer.init⟩

/-- `ShapeRenderer::prepare(device, queue, instances)` tracking only
`n = instances.len()`: early return on empty, otherwise compare
`size_of_val(instances)` (= `88 * n` bytes) against `instance_buffer.size()`
(the shadow element count) and reallocate before writing. -/
def ShapeRenderer.prepare (r : ShapeRenderer) (n : Nat) : ShapeRenderer :=
  if n = 0 then r
  else
    let needed_buffer_size := shapeInstanceSize * n
    let buf :=
      if r.instance_buffer.size < needed_buffer_size then
        InstanceBuffer.with_size needed_buffer_size
      else r.instance_buffer
    ⟨buf.write n⟩

/-- `ShapeRenderer`'s fixed quad vertices (from `ShapeRenderer::new`). -/
def shape_quad_vertices : List (ℚ × ℚ) := [(0, 1), (1, 1), (1, 0), (0, 0)]

/-- `ShapeRenderer`'s fixed index list `[0, 1, 3, 1, 2, 3]`. -/
def shape_quad_indices : List Nat := [0, 1, 3, 1, 2, 3]

/-- The texture atlas renderer's fixed quad vertices (from
`TextureRenderer::with_texture_dimensions`). -/
def texture_quad_vertices : List (ℚ × ℚ) := [(0, 0), (1, 0), (0, 1), (1, 1)]

/-- The texture atlas renderer's fixed index list `[0, 1, 2, 3]`. -/
def texture_quad_indices : List Nat := [0, 1, 2, 3]

/-- Primitive topology of a render pipeline. -/
inductive PrimitiveTopology where
  | triangleList
  | triangleStrip
deriving DecidableEq

/-- `ShapeRenderer`'s pipeline topology (`TriangleList`). -/
def shape_topology : PrimitiveTopology := PrimitiveTopology.triangleList

/-- The texture atlas renderer's pipeline topology (`TriangleStrip`). -/
def texture_topology : PrimitiveTopology := PrimitiveTopology.triangleStrip

/-- `ShapeRenderer::render`: unconditionally records one
`draw_indexed(0..index_buffer.size(), 0, 0..instance_buffer.size())`,
where `index_buffer.size() = 6`. -/
def ShapeRenderer.render (r : ShapeRenderer) : List DrawCall :=
  [⟨shape_quad_indices.length, r.instance_buffer.size⟩]

/-- Model of `Viewport`: the stored `params.resolution` and a counter of
`queue.write_buffer` calls on its uniform buffer. -/
structure Viewport where
  resolution : Nat × Nat
  writes : Nat
deriving DecidableEq

/-- `Viewport::new(device)`: resolution `[0, 0]`, buffer created with
`mapped_at_creation: false` and never written. -/
def Viewport.init : Viewport := ⟨(0, 0), 0⟩

/-- `Viewport::update(queue, resolution)`: structural-equality check, write
only on change. -/
def Viewport.update (v : Viewport) (w h : Nat) : Viewport :=
  if v.resolution ≠ (w, h) then ⟨(w, h), v.writes + 1⟩ else v

/-- `n` successive calls of `Viewport::update` with one fixed resolution. -/
def iterUpdate (v : Viewport) (w h : Nat) : Nat → Viewport
  | 0 => v
  | n + 1 => (iterUpdate v w h n).update w h

/-- The pairing loop of `gaussian_kernel_1d`: the `while i + 1 < len` walk
merging adjacent weight pairs, followed by the leftover single sample. -/
def pairReduce (intensity : ℚ) : List ℚ → List ℚ → List ℚ × List ℚ
  | a :: b :: ks, oa :: _ :: os =>
    let k := a + b
    let alpha := a / k
    let rest := pairReduce intensity ks os
    ((k / intensity) :: rest.1, (oa + alpha) :: rest.2)
  | [a], oa :: _ => ([a / intensity], [oa])
  | _, _ => ([], [])

/-- `gaussian_kernel_1d(radius, sigma)` with the pointwise `f32` Gaussian
`1/sqrt(2*pi*sigma^2) * exp(-y^2/(2*sigma^2))` abstracted as `g sigma y`:
raw weights and offsets across `-radius..=radius`, their total intensity,
then the pairwise reduction. -/
def gaussian_kernel_1d (g : ℚ → ℤ → ℚ) (radius : Nat) (sigma : ℚ) :
    List ℚ × List ℚ :=
  let ys : List ℤ := (List.range (2 * radius + 1)).map (fun (j : ℕ) => (j : ℤ) - (radius : ℤ))
  let k_values : List ℚ := ys.map (g sigma)
  let offsets : List ℚ := ys.map (fun (y : ℤ) => (y : ℚ))
  let intensity : ℚ := k_values.sum
  pairReduce intensity k_values offsets

/-- The raw (unnormalized) Gaussian sample at list position `j`, i.e. at
integer offset `j - radius`. -/
def rawG (g : ℚ → ℤ → ℚ) (sigma : ℚ) (radius : Nat) (j : Nat) : ℚ :=
  g sigma ((j : ℤ) - radius)

/-- The `intensity` accumulator of `gaussian_kernel_1d`: the sum of all
`2*radius+1` raw samples. -/
def intensityG (g : ℚ → ℤ → ℚ) (sigma : ℚ) (radius : Nat) : ℚ :=
  ((List.range (2 * radius + 1)).map (rawG g sigma radius)).sum

/-- A constant positive stand-in for the Gaussian evaluator, used to
instantiate parameterized theorems at concrete inputs. -/
def gOne : ℚ → ℤ → ℚ := fun _ _ => 1

/-- Model of `TextureArea` (with its `Buffer`): the fields consumed by the
blur compositor's `prepare`. -/
structure TextureAreaM where
  left : ℚ
  top : ℚ
  width : ℚ
  height : ℚ
  blur : Nat
  blur_color : List ℚ
deriving DecidableEq

/-- Model of `BlurInstance`. -/
structure BlurInstance where
  blur_sigma : Nat
  blur_color : List ℚ
  rect : List ℚ
deriving DecidableEq

/-- The contents of the three storage buffers uploaded by
`BlurRenderer::prepare`. -/
structure StorageUpload where
  metadata : List (Nat × Nat)
  weights : List ℚ
  offsets : List ℚ
deriving DecidableEq

/-- Model of `BlurRenderer` state: instance buffer, whether `bind_groups`
is `Some`, the last storage upload, and the last instance write. -/
structure BlurRenderer where
  instance_buffer : InstanceBuffer
  bind_groups_set : Bool
  storage : Option StorageUpload
  written_instances : List BlurInstance
deriving DecidableEq

/-- `BlurRenderer::new`: `bind_groups` and `storage_buffers` start `None`. -/
def BlurRenderer.init : BlurRenderer := ⟨InstanceBuffer.init, false, none, []⟩

/-- The metadata/weights/offsets fold at the top of `BlurRenderer::prepare`:
every texture contributes `[texture.buffer.filters.blur, weights.len()]` and
the kernel of `gaussian_kernel_1d((blur * 3) as i32, blur as f32)`. -/
def blurArrays (g : ℚ → ℤ → ℚ) (textures : List TextureAreaM) :
    List (Nat × Nat) × List ℚ × List ℚ :=
  textures.foldl
    (fun acc t =>
      let kern := gaussian_kernel_1d g (t.blur * 3) (t.blur : ℚ)
      (acc.1 ++ [(t.blur, acc.2.1.length)], acc.2.1 ++ kern.1, acc.2.2 ++ kern.2))
    ([], [], [])

/-- `BlurRenderer::prepare(device, queue, textures)`: build the three flat
arrays, substitute single-element placeholders when empty, create the bind
groups, store the storage buffers, and write the instance buffer with either
the per-texture `BlurInstance`s or one zero-sigma placeholder. -/
def BlurRenderer.prepare (b : BlurRenderer) (g : ℚ → ℤ → ℚ)
    (textures : List TextureAreaM) : BlurRenderer :=
  let arrs := blurArrays g textures
  let metadata := if arrs.1 = [] then [((0 : Nat), (0 : Nat))] else arrs.1
  let weights := if arrs.2.1 = [] then [(0 : ℚ)] else arrs.2.1
  let offsets := if arrs.2.2 = [] then [(0 : ℚ)] else arrs.2.2
  let instances := textures.map (fun t =>
    BlurInstance.mk t.blur t.blur_color [t.left, t.top, t.width, t.height])
  let instances_to_use :=
    if instances = [] then [BlurInstance.mk 0 [0, 0, 0, 0] [0, 0, 0, 0]]
    else instances
  let instance_buffer_size := blurInstanceSize * instances_to_use.length
  let buf :=
    if b.instance_buffer.size < instance_buffer_size then
      InstanceBuffer.with_size instance_buffer_size
    else b.instance_buffer
  { instance_buffer := buf.write instances_to_use.length
    bind_groups_set := true
    storage := some ⟨metadata, weights, offsets⟩
    written_instances := instances_to_use }

/-- Whether `BlurRenderer::render` reaches `.unwrap()` on a `None`
`bind_groups` field. -/
def BlurRenderer.renderHitsNone (b : BlurRenderer) : Bool := !b.bind_groups_set

/-- `BlurRenderer::render`: one horizontal and one vertical pass, each a
single `draw_indexed(0..index_buffer.size(), 0, 0..1)` with the caller's
index buffer. -/
def BlurRenderer.render (_b : BlurRenderer) (indexCount : Nat) : List DrawCall :=
  [⟨indexCount, 1⟩, ⟨indexCount, 1⟩]

/-- Model of the texture atlas renderer (`TextureRenderer`) state relevant
to the claims. -/
structure TextureRenderer where
  instance_buffer : InstanceBuffer
  prepared_instances : Nat
  blur : BlurRenderer
deriving DecidableEq

/-- `TextureRenderer::with_texture_dimensions`: empty instance buffer, zero
prepared instances, fresh blur renderer. -/
def TextureRenderer.init : TextureRenderer := ⟨InstanceBuffer.init, 0, BlurRenderer.init⟩

/-- `TextureRenderer::prepare(device, queue, textures)`: set
`prepared_instances = textures.len()` first, return early when empty,
otherwise grow/write the instance buffer (comparing `116 * len` bytes
against the shadow element count, as the source does) and delegate to
`BlurRenderer::prepare`. -/
def TextureRenderer.prepare (r : TextureRenderer) (g : ℚ → ℤ → ℚ)
    (textures : List TextureAreaM) : TextureRenderer :=
  let r1 : TextureRenderer := { r with prepared_instances := textures.length }
  if textures = [] then r1
  else
    let instance_buffer_size := textureInstanceSize * textures.length
    let buf :=
      if r1.instance_buffer.size < instance_buffer_size then
        InstanceBuffer.with_size instance_buffer_size
      else r1.instance_buffer
    { r1 with
      instance_buffer := buf.write textures.length
      blur := r1.blur.prepare g textures }

/-- `TextureRenderer::render`: early return when `prepared_instances == 0`;
otherwise one `draw_indexed(0..index_buffer.size(), 0,
0..prepared_instances)` with `index_buffer.size() = 4`, then the blur
compositor's two passes. -/
def TextureRenderer.render (r : TextureRenderer) : List DrawCall :=
  if r.prepared_instances = 0 then []
  else ⟨texture_quad_indices.length, r.prepared_instances⟩ ::
    r.blur.render texture_quad_indices.length

/-- One externally driven call on a `TextureRenderer`. -/
inductive RendererOp where
  | prepare (textures : List TextureAreaM)
  | render
  | resize
deriving DecidableEq

/-- State transition for one call: `render` is `&self` (no mutation), and
`resize` only replaces the blur ping-pong textures and the stored height,
touching neither `prepared_instances` nor the blur bind groups. -/
def TextureRenderer.step (r : TextureRenderer) (g : ℚ → ℤ → ℚ) :
    RendererOp → TextureRenderer
  | RendererOp.prepare ts => r.prepare g ts
  | RendererOp.render => r
  | RendererOp.resize => r

/-- Run a call sequence and check that every `render` in it either returns
early (`prepared_instances == 0`) or finds the blur bind groups set, i.e.
that the `unwrap` in `BlurRenderer::render` is never reached on `None`. -/
def runSafe (r : TextureRenderer) (g : ℚ → ℤ → ℚ) : List RendererOp → Bool
  | [] => true
  | op :: ops =>
    match op with
    | RendererOp.render =>
      (decide (r.prepared_instances = 0) || !r.blur.renderHitsNone) &&
        runSafe (r.step g op) g ops
    | _ => runSafe (r.step g op) g ops

/-- `u32::div_ceil` as used on byte strides. -/
def div_ceil (a b : Nat) : Nat := a / b + if a % b = 0 then 0 else 1

/-- `bytes_per_row = unpadded_bytes_per_row.div_ceil(256) * 256` for an
upload of width `w` texels (so `unpadded_bytes_per_row = 4 * w`). -/
def bytes_per_row (w : Nat) : Nat := div_ceil (4 * w) 256 * 256

/-- The row-padding loop of `TextureRenderer::prepare`: for each row that
fits in the source bytes, copy its `4 * w` bytes and extend with zeros up to
`bytes_per_row`. -/
def build_padded_data (bytes : List Nat) (w h : Nat) : List Nat :=
  (List.range h).foldl
    (fun acc y =>
      let row_start := y * (4 * w)
      let row_end := row_start + 4 * w
      if row_end ≤ bytes.length then
        (acc ++ (bytes.drop row_start).take (4 * w)) ++
          List.replicate (bytes_per_row w - 4 * w) 0
      else acc)
    []

/-- The data/stride pair handed to `queue.write_texture` for one layer:
padded copy when `bytes_per_row != unpadded_bytes_per_row`, the source
bytes as-is otherwise. -/
def layer_upload (bytes : List Nat) (w h : Nat) : List Nat × Nat :=
  if bytes_per_row w ≠ 4 * w then (build_padded_data bytes w h, bytes_per_row w)
  else (bytes, bytes_per_row w)

/-- The invariant backing C9: whenever the prepared-instance count is
nonzero, the blur bind groups have been set. -/
def BlurSafeInv (r : TextureRenderer) : Prop :=
  r.prepared_instances ≠ 0 → r.blur.bind_groups_set = true

/-- The kernel weights contributed by one texture:
`gaussian_kernel_1d((blur * 3) as i32, blur as f32).0`. -/
def kernelWeights (g : ℚ → ℤ → ℚ) (t : TextureAreaM) : List ℚ :=
  (gaussian_kernel_1d g (t.blur * 3) (t.blur : ℚ)).1

/-- The kernel offsets contributed by one texture. -/
def kernelOffsets (g : ℚ → ℤ → ℚ) (t : TextureAreaM) : List ℚ :=
  (gaussian_kernel_1d g (t.blur * 3) (t.blur : ℚ)).2

/-- The metadata entries produced by the `BlurRenderer::prepare` fold,
starting from a given weights-buffer offset. -/
def mdFrom (g : ℚ → ℤ → ℚ) (base : Nat) : List TextureAreaM → List (Nat × Nat)
  | [] => []
  | t :: ts => (t.blur, base) :: mdFrom g (base + (kernelWeights g t).length) ts

/-- C1: the spec's growth policy claims `prepare` compares `N * elementSize`
against the instance buffer's current *byte capacity* and that the capacity
is monotonically non-decreasing.  The code instead compares against
`InstanceBuffer::size()`, the shadow *element count*: after preparing 200
shape instances (capacity `200 * 88 = 17600` bytes) a prepare of 3 instances
sees `200 < 3 * 88 = 264`, reallocates to exactly 264 bytes, and the
capacity shrinks. -/
theorem C1_capacity_shrinks :
    (ShapeRenderer.init.prepare 200).instance_buffer.capacity = 17600 ∧
    ((ShapeRenderer.init.prepare 200).prepare 3).instance_buffer.capacity = 264 ∧
    ((ShapeRenderer.init.prepare 200).prepare 3).instance_buffer.capacity <
      (ShapeRenderer.init.prepare 200).instance_buffer.capacity := by
  decide

/-- C2 counterexample: after `prepare` with 5 instances and then `prepare`
with 0 instances (an early return), `ShapeRenderer::render` still issues one
indexed draw — with the stale instance count 5 — so "if N = 0 the subsequent
render issues zero draw calls" fails for the shape renderer. -/
theorem C2_counterexample :
    ((ShapeRenderer.init.prepare 5).prepare 0).render = [⟨6, 5⟩] := by
  decide

/-- C2 (amended): for the texture atlas renderer, `prepare` with an empty
list makes `render` issue zero draw calls, and with `N > 0` it issues exactly
one indexed draw of instance count `N` followed by the blur compositor's two
fixed draws of instance range length 1; the shape renderer's `render` always
issues exactly one indexed draw whose instance count is the element count of
the last non-empty `prepare` (the prior count when `N = 0`). -/
theorem C2_amended :
    (∀ (g : ℚ → ℤ → ℚ) (t : TextureRenderer) (ts : List TextureAreaM),
      (t.prepare g ts).render =
        if ts.length = 0 then []
        else [⟨4, ts.length⟩, ⟨4, 1⟩, ⟨4, 1⟩]) ∧
    (∀ (s : ShapeRenderer) (n : Nat),
      (s.prepare n).render = [⟨6, if n = 0 then s.instance_buffer.count else n⟩]) := by
  constructor
  · intro g t ts
    by_cases hts : ts = []
    · subst hts
      simp [TextureRenderer.prepare, TextureRenderer.render]
    · have hlen : ts.length ≠ 0 := by simpa using hts
      simp only [TextureRenderer.prepare, TextureRenderer.render, if_neg hts,
        if_neg hlen, BlurRenderer.render, texture_quad_indices]
      rfl
  · intro s n
    by_cases hn : n = 0
    · subst hn
      simp [ShapeRenderer.prepare, ShapeRenderer.render, InstanceBuffer.size,
        shape_quad_indices]
    · simp [ShapeRenderer.prepare, ShapeRenderer.render, if_neg hn,
        InstanceBuffer.size, InstanceBuffer.write, shape_quad_indices]

/-- C6 counterexample: on a fresh viewport (stored resolution `(0, 0)`), two
successive `update` calls with resolution `(0, 0)` issue zero device writes,
not exactly one. -/
theorem C6_counterexample :
    ((Viewport.init.update 0 0).update 0 0).writes = 0 := by
  decide

/-- C6 (amended): two successive `update` calls with the same resolution
issue exactly one device write when the value differs from the stored
resolution and zero writes when it equals it; an `update` whose resolution
equals the stored one is a complete no-op, and the stored resolution after
any `update` is the argument. -/
theorem C6_amended (v : Viewport) (w h : Nat) :
    ((v.update w h).update w h).writes =
      v.writes + (if v.resolution = (w, h) then 0 else 1) ∧
    (v.update w h).resolution = (w, h) ∧
    (v.resolution = (w, h) → v.update w h = v) := by
  by_cases hv : v.resolution = (w, h)
  · refine ⟨?_, ?_, fun _ => ?_⟩ <;>
      simp [Viewport.update, hv]
  · refine ⟨?_, ?_, fun hc => absurd hc hv⟩ <;>
      simp [Viewport.update, hv]

/-- C6 witness: the amended no-op clause instantiated on a fresh viewport at
resolution `(0, 0)`. -/
theorem C6_witness : Viewport.init.update 0 0 = Viewport.init :=
  (C6_amended Viewport.init 0 0).2.2 (by decide)

/-- C7 counterexample: the texture atlas renderer's fixed quad uses 4
indices with triangle-strip topology, not the shape renderer's 6-index
triangle-list geometry. -/
theorem C7_counterexample :
    texture_quad_indices.length = 4 ∧
    texture_quad_indices ≠ shape_quad_indices ∧
    texture_topology ≠ shape_topology := by
  decide

/-- C7 (amended): both renderers draw a fixed quad over the same four unit
corner vertices, but the shape renderer uses 6 indices with triangle-list
topology while the texture atlas renderer uses 4 indices with triangle-strip
topology (also two triangles, encoded as a strip). -/
theorem C7_amended :
    shape_quad_vertices.length = 4 ∧
    shape_quad_indices.length = 6 ∧
    shape_topology = PrimitiveTopology.triangleList ∧
    texture_quad_vertices.length = 4 ∧
    texture_quad_indices.length = 4 ∧
    texture_topology = PrimitiveTopology.triangleStrip ∧
    texture_quad_vertices.Perm shape_quad_vertices := by
  refine ⟨rfl, rfl, rfl, rfl, rfl, rfl, ?_⟩
  decide

/-- C8: `TextureRenderer::prepare` sets `prepared_instances` to the length
of the area list on every call — including to zero — so reading the
prepared-instance count after any `prepare` returns exactly the most
recently passed `N`, from any prior renderer state. -/
theorem C8_prepared_count (g : ℚ → ℤ → ℚ) (r : TextureRenderer)
    (areas : List TextureAreaM) :
    (r.prepare g areas).prepared_instances = areas.length := by
  by_cases h : areas = []
  · subst h; simp [TextureRenderer.prepare]
  · simp [TextureRenderer.prepare, if_neg h]

/-- C10: immediately after `Viewport::new` the stored resolution is
`(0, 0)` and no device write has occurred, and any number of `update` calls
with resolution `(0, 0)` never writes and leaves the resolution `(0, 0)`. -/
theorem C10_fresh_viewport :
    Viewport.init.resolution = (0, 0) ∧ Viewport.init.writes = 0 ∧
    ∀ n, (iterUpdate Viewport.init 0 0 n).writes = 0 ∧
      (iterUpdate Viewport.init 0 0 n).resolution = (0, 0) := by
  refine ⟨rfl, rfl, fun n => ?_⟩
  induction n with
  | zero => exact ⟨rfl, rfl⟩
  | succ n ih =>
    have hstep : iterUpdate Viewport.init 0 0 (n + 1) = iterUpdate Viewport.init 0 0 n := by
      simp [iterUpdate, Viewport.update, ih.2]
    rw [hstep]
    exact ih

theorem blurSafeInv_init : BlurSafeInv TextureRenderer.init := by
  intro h
  exact absurd rfl h

theorem blurSafeInv_step (r : TextureRenderer) (g : ℚ → ℤ → ℚ)
    (op : RendererOp) (hr : BlurSafeInv r) : BlurSafeInv (r.step g op) := by
  cases op with
  | render => exact hr
  | resize => exact hr
  | prepare ts =>
    by_cases h : ts = []
    · subst h
      intro hc
      simp [TextureRenderer.step, TextureRenderer.prepare] at hc
    · intro _
      simp [TextureRenderer.step, TextureRenderer.prepare, if_neg h,
        BlurRenderer.prepare]

theorem runSafe_of_inv (g : ℚ → ℤ → ℚ) :
    ∀ (ops : List RendererOp) (r : TextureRenderer), BlurSafeInv r →
      runSafe r g ops = true
  | [], _, _ => rfl
  | op :: ops, r, hr => by
    have hnext := runSafe_of_inv g ops (r.step g op) (blurSafeInv_step r g op hr)
    cases op with
    | prepare ts => simpa [runSafe] using hnext
    | resize => simpa [runSafe] using hnext
    | render =>
      by_cases h : r.prepared_instances = 0
      · simp [runSafe, h]
        simpa [TextureRenderer.step] using hnext
      · have hbg : r.blur.bind_groups_set = true := hr h
        simp [runSafe, h, BlurRenderer.renderHitsNone, hbg]
        simpa [TextureRenderer.step] using hnext

/-- C9: for every sequence of `prepare`/`render`/`resize` calls on a
`TextureRenderer` starting from construction, the `unwrap` of the optional
blur bind groups in `BlurRenderer::render` is never reached on `None`:
every `render` either returns early on a zero prepared count or finds the
bind groups set by the non-empty `prepare` that produced that count. -/
theorem C9_blur_unwrap_safe (g : ℚ → ℤ → ℚ) (ops : List RendererOp) :
    runSafe TextureRenderer.init g ops = true :=
  runSafe_of_inv g ops TextureRenderer.init blurSafeInv_init

theorem pairReduce_sum (I : ℚ) :
    ∀ (ks os : List ℚ), ks.length = os.length →
      (pairReduce I ks os).1.sum = ks.sum / I
  | [], [], _ => by simp [pairReduce]
  | [a], [oa], _ => by simp [pairReduce]
  | a :: b :: ks, oa :: ob :: os, h => by
    have ih := pairReduce_sum I ks os (by simp at h; omega)
    simp only [pairReduce, List.sum_cons, ih, div_add_div_same]
    ring_nf
  | [], _ :: _, h => by simp at h
  | [_], [], h => by simp at h
  | [a], _ :: _ :: _, h => by simp at h
  | _ :: _ :: _, [], h => by simp at h
  | _ :: _ :: _, [_], h => by simp at h

theorem pairReduce_map_range (I : ℚ) :
    ∀ (m : Nat) (f o : Nat → ℚ),
      pairReduce I ((List.range (2 * m + 1)).map f) ((List.range (2 * m + 1)).map o) =
        ((List.range m).map (fun i => (f (2 * i) + f (2 * i + 1)) / I) ++ [f (2 * m) / I],
          (List.range m).map
            (fun i => o (2 * i) + f (2 * i) / (f (2 * i) + f (2 * i + 1))) ++ [o (2 * m)])
  | 0, f, o => by
    simp [pairReduce]
  | m + 1, f, o => by
    have ih := pairReduce_map_range I m (fun i => f (i + 1 + 1)) (fun i => o (i + 1 + 1))
    have e1 : ∀ i : ℕ, 2 * (i + 1) = 2 * i + 1 + 1 := fun i => by ring
    have hn : 2 * (m + 1) + 1 = 2 * m + 1 + 1 + 1 := by ring
    rw [hn, List.range_succ_eq_map, List.range_succ_eq_map]
    simp only [List.map_cons, List.map_map, Function.comp_def, Nat.succ_eq_add_one,
      pairReduce]
    rw [ih]
    rw [List.range_succ_eq_map]
    simp only [List.map_cons, List.map_map, Function.comp_def, Nat.succ_eq_add_one, e1,
      mul_zero, Nat.zero_add, List.cons_append]

theorem gaussian_kernel_1d_eq (g : ℚ → ℤ → ℚ) (radius : Nat) (sigma : ℚ) :
    gaussian_kernel_1d g radius sigma =
      pairReduce (intensityG g sigma radius)
        ((List.range (2 * radius + 1)).map (rawG g sigma radius))
        ((List.range (2 * radius + 1)).map
          (fun (j : ℕ) => (((j : ℤ) - (radius : ℤ) : ℤ) : ℚ))) := by
  simp only [gaussian_kernel_1d, List.map_map]
  rfl

/-- C3: for every radius and sigma (with the pointwise Gaussian evaluator
abstracted as a positive function, as it is for every `sigma > 0`),
`gaussian_kernel_1d` produces exactly `⌈(2*radius+1)/2⌉` merged samples
whose weights sum exactly to 1 (hence within any floating-point tolerance),
each adjacent raw pair `(a, b)` merged into one sample of normalized weight
`(a + b) / intensity` at offset `offset_a + a / (a + b)`, with the leftover
raw sample `a` kept at weight `a / intensity` and its own offset. -/
theorem C3_gaussian_kernel (g : ℚ → ℤ → ℚ) (radius : Nat) (sigma : ℚ)
    (hpos : ∀ y : ℤ, 0 < g sigma y) :
    (gaussian_kernel_1d g radius sigma).1.length = (2 * radius + 1 + 1) / 2 ∧
    (gaussian_kernel_1d g radius sigma).1.sum = 1 ∧
    (gaussian_kernel_1d g radius sigma).1 =
      (List.range radius).map (fun i =>
          (rawG g sigma radius (2 * i) + rawG g sigma radius (2 * i + 1)) /
            intensityG g sigma radius) ++
        [rawG g sigma radius (2 * radius) / intensityG g sigma radius] ∧
    (gaussian_kernel_1d g radius sigma).2 =
      (List.range radius).map (fun (i : ℕ) =>
          (((2 * i : ℕ) : ℚ) - (radius : ℚ)) +
            rawG g sigma radius (2 * i) /
              (rawG g sigma radius (2 * i) + rawG g sigma radius (2 * i + 1))) ++
        [(radius : ℚ)] := by
  have hIpos : 0 < intensityG g sigma radius := by
    apply List.sum_pos
    · intro x hx
      obtain ⟨j, hj, rfl⟩ := List.mem_map.mp hx
      exact hpos _
    · simp [List.range_eq_nil]
  have hI0 : intensityG g sigma radius ≠ 0 := ne_of_gt hIpos
  have hchar := pairReduce_map_range (intensityG g sigma radius) radius
    (rawG g sigma radius) (fun (j : ℕ) => (((j : ℤ) - (radius : ℤ) : ℤ) : ℚ))
  have hker := gaussian_kernel_1d_eq g radius sigma
  refine ⟨?_, ?_, ?_, ?_⟩
  · rw [hker, hchar]
    simp only [List.length_append, List.length_map, List.length_range,
      List.length_singleton]
    omega
  · rw [hker, pairReduce_sum _ _ _ (by simp)]
    exact div_self hI0
  · rw [hker, hchar]
  · rw [hker, hchar]
    dsimp only
    congr 1
    · exact List.map_congr_left (fun i _ => by push_cast; ring)
    · congr 1
      push_cast
      ring

/-- C3 witness: at radius 1 with the constant positive evaluator the kernel
has `⌈3/2⌉ = 2` merged samples `[2/3, 1/3]` at offsets `[-1/2, 1]`, and the
weights sum exactly to 1. -/
theorem C3_witness :
    (gaussian_kernel_1d gOne 1 1).1 = [2 / 3, 1 / 3] ∧
    (gaussian_kernel_1d gOne 1 1).2 = [-(1 / 2), 1] ∧
    (gaussian_kernel_1d gOne 1 1).1.sum = 1 ∧
    (gaussian_kernel_1d gOne 1 1).1.length = (2 * 1 + 1 + 1) / 2 := by
  have h := C3_gaussian_kernel gOne 1 1 (fun y => one_pos)
  have hr3 : List.range (2 * 1 + 1) = [0, 1, 2] := by decide
  have hr1 : List.range 1 = [0] := by decide
  refine ⟨?_, ?_, h.2.1, h.1⟩
  · rw [h.2.2.1]
    norm_num [rawG, intensityG, gOne, hr3, hr1]
  · rw [h.2.2.2]
    norm_num [rawG, gOne, hr1]

theorem bytes_per_row_ge (w : Nat) : 4 * w ≤ bytes_per_row w := by
  unfold bytes_per_row div_ceil
  split <;> omega

theorem bytes_per_row_eq_iff (w : Nat) : bytes_per_row w = 4 * w ↔ 256 ∣ 4 * w := by
  unfold bytes_per_row div_ceil
  split <;> omega

theorem build_padded_data_succ (bytes : List Nat) (w h : Nat) :
    build_padded_data bytes w (h + 1) =
      if h * (4 * w) + 4 * w ≤ bytes.length then
        (build_padded_data bytes w h ++ (bytes.drop (h * (4 * w))).take (4 * w)) ++
          List.replicate (bytes_per_row w - 4 * w) 0
      else build_padded_data bytes w h := by
  unfold build_padded_data
  rw [List.range_succ, List.foldl_append]
  rfl

theorem build_padded_data_eq (bytes : List Nat) (w : Nat) :
    ∀ h : Nat, 4 * w * h ≤ bytes.length →
      build_padded_data bytes w h =
        ((List.range h).map (fun y =>
          ((bytes.drop (y * (4 * w))).take (4 * w)) ++
            List.replicate (bytes_per_row w - 4 * w) 0)).flatten := by
  intro h
  induction h with
  | zero => intro _; rfl
  | succ h ih =>
    intro hle
    have hle' : 4 * w * h ≤ bytes.length :=
      le_trans (Nat.mul_le_mul_left _ (Nat.le_succ h)) hle
    have hrow : h * (4 * w) + 4 * w ≤ bytes.length := by
      have hr : h * (4 * w) + 4 * w = 4 * w * (h + 1) := by ring
      rw [hr]
      exact hle
    rw [build_padded_data_succ, if_pos hrow, ih hle', List.range_succ, List.map_append,
      List.flatten_append]
    simp [List.append_assoc]

/-- C4: for every layer width `w` and height `h` whose source bytes hold at
least `4*w*h` bytes, if `4*w` is not a multiple of 256 the upload uses the
padded stride `⌈4*w / 256⌉ * 256`, uploading a buffer that is exactly the
concatenation over all `h` rows of the row's `4*w` data bytes followed by
zero padding, of total length `stride * h`; if `4*w` is a multiple of 256
the source bytes are uploaded as-is with stride `4*w`. -/
theorem C4_row_padding (bytes : List Nat) (w h : Nat)
    (hlen : 4 * w * h ≤ bytes.length) :
    (¬ 256 ∣ 4 * w →
      (layer_upload bytes w h).2 = (4 * w + 255) / 256 * 256 ∧
      (layer_upload bytes w h).1 =
        ((List.range h).map (fun y =>
          ((bytes.drop (y * (4 * w))).take (4 * w)) ++
            List.replicate (bytes_per_row w - 4 * w) 0)).flatten ∧
      (layer_upload bytes w h).1.length = (layer_upload bytes w h).2 * h) ∧
    (256 ∣ 4 * w →
      (layer_upload bytes w h).1 = bytes ∧ (layer_upload bytes w h).2 = 4 * w) := by
  constructor
  · intro hndvd
    have hne : bytes_per_row w ≠ 4 * w := fun hc => hndvd ((bytes_per_row_eq_iff w).mp hc)
    have hup : layer_upload bytes w h = (build_padded_data bytes w h, bytes_per_row w) := by
      rw [layer_upload, if_pos hne]
    have hstride : bytes_per_row w = (4 * w + 255) / 256 * 256 := by
      unfold bytes_per_row div_ceil
      split <;> omega
    refine ⟨by rw [hup, hstride], by rw [hup]; exact build_padded_data_eq bytes w h hlen, ?_⟩
    rw [hup, build_padded_data_eq bytes w h hlen]
    rw [List.length_flatten, List.map_map]
    have hrowlen : ∀ y ∈ List.range h,
        (List.length ∘ fun y =>
          ((bytes.drop (y * (4 * w))).take (4 * w)) ++
            List.replicate (bytes_per_row w - 4 * w) 0) y = bytes_per_row w := by
      intro y hy
      have hyh : y < h := List.mem_range.mp hy
      have hfit : y * (4 * w) + 4 * w ≤ bytes.length := by
        have h1 : y * (4 * w) + 4 * w ≤ 4 * w * h := by
          have h2 : y * (4 * w) + 4 * w = 4 * w * (y + 1) := by ring
          rw [h2]
          exact Nat.mul_le_mul_left _ hyh
        exact le_trans h1 hlen
      simp only [Function.comp_apply, List.length_append, List.length_take,
        List.length_replicate, List.length_drop]
      have : min (4 * w) (bytes.length - y * (4 * w)) = 4 * w := by omega
      have hge := bytes_per_row_ge w
      omega
    rw [List.map_congr_left hrowlen]
    simp [List.map_const']
    ring
  · intro hdvd
    have heq : bytes_per_row w = 4 * w := (bytes_per_row_eq_iff w).mpr hdvd
    have hup : layer_upload bytes w h = (bytes, bytes_per_row w) := by
      rw [layer_upload, if_neg (by simpa using heq)]
    exact ⟨by rw [hup], by rw [hup]; exact heq⟩

/-- C4 witness: width 1 and height 2 with exactly 8 source bytes — the
stride is 256 and the padded upload buffer has length 512; width 64 (where
`4*64 = 256`) uploads as-is with stride 256. -/
theorem C4_witness :
    (layer_upload (List.replicate 8 7) 1 2).2 = 256 ∧
    (layer_upload (List.replicate 8 7) 1 2).1.length = 512 ∧
    (layer_upload (List.replicate 512 7) 64 2).1 = List.replicate 512 7 ∧
    (layer_upload (List.replicate 512 7) 64 2).2 = 256 := by
  have h1 := (C4_row_padding (List.replicate 8 7) 1 2
    (by rw [List.length_replicate])).1 (by decide)
  have h2 := (C4_row_padding (List.replicate 512 7) 64 2
    (by rw [List.length_replicate])).2 (by decide)
  refine ⟨by rw [h1.1], ?_, h2.1, by rw [h2.2]⟩
  rw [h1.2.2, h1.1]

theorem kernelWeights_length (g : ℚ → ℤ → ℚ) (t : TextureAreaM) :
    (kernelWeights g t).length = 3 * t.blur + 1 := by
  unfold kernelWeights
  rw [gaussian_kernel_1d_eq, pairReduce_map_range]
  simp only [List.length_append, List.length_map, List.length_range,
    List.length_singleton]
  ring

theorem kernelOffsets_length (g : ℚ → ℤ → ℚ) (t : TextureAreaM) :
    (kernelOffsets g t).length = 3 * t.blur + 1 := by
  unfold kernelOffsets
  rw [gaussian_kernel_1d_eq, pairReduce_map_range]
  simp only [List.length_append, List.length_map, List.length_range,
    List.length_singleton]
  ring

theorem blurArrays_fold (g : ℚ → ℤ → ℚ) :
    ∀ (ts : List TextureAreaM) (md : List (Nat × Nat)) (ws os : List ℚ),
      ts.foldl
        (fun acc t =>
          let kern := gaussian_kernel_1d g (t.blur * 3) (t.blur : ℚ)
          (acc.1 ++ [(t.blur, acc.2.1.length)], acc.2.1 ++ kern.1, acc.2.2 ++ kern.2))
        (md, ws, os) =
      (md ++ mdFrom g ws.length ts, ws ++ (ts.map (kernelWeights g)).flatten,
        os ++ (ts.map (kernelOffsets g)).flatten)
  | [], md, ws, os => by simp [mdFrom]
  | t :: ts, md, ws, os => by
    have ih := blurArrays_fold g ts (md ++ [(t.blur, ws.length)])
      (ws ++ kernelWeights g t) (os ++ kernelOffsets g t)
    simp only [List.foldl_cons, mdFrom, kernelWeights, kernelOffsets] at ih ⊢
    rw [ih]
    simp [List.append_assoc, List.length_append, kernelWeights, kernelOffsets]

theorem blurArrays_eq (g : ℚ → ℤ → ℚ) (ts : List TextureAreaM) :
    blurArrays g ts =
      (mdFrom g 0 ts, (ts.map (kernelWeights g)).flatten,
        (ts.map (kernelOffsets g)).flatten) := by
  unfold blurArrays
  rw [blurArrays_fold]
  simp

theorem mdFrom_length (g : ℚ → ℤ → ℚ) :
    ∀ (ts : List TextureAreaM) (base : Nat), (mdFrom g base ts).length = ts.length
  | [], _ => rfl
  | t :: ts, base => by
    simp [mdFrom, mdFrom_length g ts]

theorem mdFrom_get (g : ℚ → ℤ → ℚ) :
    ∀ (ts : List TextureAreaM) (base i : Nat), i < ts.length →
      (mdFrom g base ts)[i]? =
        ts[i]?.map (fun t =>
          (t.blur, base + ((ts.take i).map (fun u => (kernelWeights g u).length)).sum))
  | t :: ts, base, 0, _ => by simp [mdFrom]
  | t :: ts, base, i + 1, h => by
    have ih := mdFrom_get g ts (base + (kernelWeights g t).length) i (by simpa using h)
    simp only [mdFrom, List.getElem?_cons_succ, ih, List.take_succ_cons, List.map_cons,
      List.sum_cons, Nat.add_assoc]

theorem blurWeights_len (g : ℚ → ℤ → ℚ) (ts : List TextureAreaM) :
    ((ts.map (kernelWeights g)).flatten).length =
      (ts.map (fun t => 3 * t.blur + 1)).sum := by
  rw [List.length_flatten, List.map_map]
  congr 1
  apply List.map_congr_left
  intro t _
  simpa using kernelWeights_length g t

theorem blurOffsets_len (g : ℚ → ℤ → ℚ) (ts : List TextureAreaM) :
    ((ts.map (kernelOffsets g)).flatten).length =
      (ts.map (fun t => 3 * t.blur + 1)).sum := by
  rw [List.length_flatten, List.map_map]
  congr 1
  apply List.map_congr_left
  intro t _
  simpa using kernelOffsets_length g t

/-- C5 counterexample: two texture areas with blur radius 0 — so no
instance requests blur — still produce a two-entry metadata upload
`[(0, 0), (0, 1)]` and two written `BlurInstance`s, not the single-element
placeholder buffers and single placeholder instance the claim promises
whenever no instance requests blur. -/
theorem C5_counterexample :
    (BlurRenderer.init.prepare gOne
        [TextureAreaM.mk 0 0 0 0 0 [0, 0, 0, 0],
          TextureAreaM.mk 0 0 0 0 0 [0, 0, 0, 0]]).storage.map
        (fun s => s.metadata) = some [(0, 0), (0, 1)] ∧
    (BlurRenderer.init.prepare gOne
        [TextureAreaM.mk 0 0 0 0 0 [0, 0, 0, 0],
          TextureAreaM.mk 0 0 0 0 0 [0, 0, 0, 0]]).written_instances.length = 2 := by
  constructor
  · rfl
  · rfl

/-- C5 (amended): `BlurRenderer::prepare` builds the three flat arrays
across all instances — every instance, whether or not it requests blur,
contributes one metadata entry `(blurRadius, weightsStartOffset)` and its
kernel's weights and offsets — and uploads them; the single-element
placeholder buffers and the single zero-sigma placeholder `BlurInstance`
are used exactly when the prepared texture list is empty. -/
theorem C5_blur_prepare (g : ℚ → ℤ → ℚ) (b : BlurRenderer)
    (ts : List TextureAreaM) :
    (blurArrays g ts).1.length = ts.length ∧
    (∀ i, i < ts.length →
      (blurArrays g ts).1[i]? =
        ts[i]?.map (fun t =>
          (t.blur, ((ts.take i).map (fun u => 3 * u.blur + 1)).sum))) ∧
    (blurArrays g ts).2.1 = (ts.map (kernelWeights g)).flatten ∧
    (blurArrays g ts).2.2 = (ts.map (kernelOffsets g)).flatten ∧
    (ts ≠ [] →
      (b.prepare g ts).storage =
        some ⟨(blurArrays g ts).1, (blurArrays g ts).2.1, (blurArrays g ts).2.2⟩ ∧
      (b.prepare g ts).written_instances =
        ts.map (fun t =>
          BlurInstance.mk t.blur t.blur_color [t.left, t.top, t.width, t.height])) ∧
    (ts = [] →
      (b.prepare g ts).storage = some ⟨[(0, 0)], [(0 : ℚ)], [(0 : ℚ)]⟩ ∧
      (b.prepare g ts).written_instances =
        [BlurInstance.mk 0 [0, 0, 0, 0] [0, 0, 0, 0]]) := by
  refine ⟨?_, ?_, ?_, ?_, ?_, ?_⟩
  · rw [blurArrays_eq]
    exact mdFrom_length g ts 0
  · intro i hi
    rw [blurArrays_eq]
    rw [mdFrom_get g ts 0 i hi]
    simp only [Nat.zero_add, kernelWeights_length]
  · rw [blurArrays_eq]
  · rw [blurArrays_eq]
  · intro hne
    have hmd : (blurArrays g ts).1 ≠ [] := by
      rw [blurArrays_eq]
      intro hc
      apply hne
      have hl := congrArg List.length hc
      rw [mdFrom_length] at hl
      simpa using hl
    have hws : (blurArrays g ts).2.1 ≠ [] := by
      rw [blurArrays_eq]
      intro hc
      have hl := congrArg List.length hc
      rw [blurWeights_len] at hl
      cases ts with
      | nil => exact hne rfl
      | cons t ts' => simp at hl
    have hos : (blurArrays g ts).2.2 ≠ [] := by
      rw [blurArrays_eq]
      intro hc
      have hl := congrArg List.length hc
      rw [blurOffsets_len] at hl
      cases ts with
      | nil => exact hne rfl
      | cons t ts' => simp at hl
    have hins : ts.map (fun t =>
        BlurInstance.mk t.blur t.blur_color [t.left, t.top, t.width, t.height]) ≠ [] := by
      simpa using hne
    constructor
    · simp only [BlurRenderer.prepare, if_neg hmd, if_neg hws, if_neg hos]
    · simp only [BlurRenderer.prepare, if_neg hins]
  · intro he
    subst he
    exact ⟨rfl, rfl⟩

/-- C5 witness: one texture with blur radius 1 — the written instance
carries sigma 1 and the metadata entry is `(1, 0)`. -/
theorem C5_witness :
    (BlurRenderer.init.prepare gOne
        [TextureAreaM.mk 0 0 0 0 1 [0, 0, 0, 1]]).written_instances =
      [BlurInstance.mk 1 [0, 0, 0, 1] [0, 0, 0, 0]] ∧
    (blurArrays gOne [TextureAreaM.mk 0 0 0 0 1 [0, 0, 0, 1]]).1[0]? =
      some (1, 0) := by
  have h := C5_blur_prepare gOne BlurRenderer.init
    [TextureAreaM.mk 0 0 0 0 1 [0, 0, 0, 1]]
  refine ⟨(h.2.2.2.2.1 (by decide)).2, ?_⟩
  rw [h.2.1 0 (by decide)]
  rfl
